import Mathlib

/-!
Verification of the document question-extraction pipeline
(`app.py` and `document_processor.py`).

Python strings are sequences of code points, so they are embedded as
`List Char` (`PyStr`).  Each Lean definition below is a shallow embedding
of the correspondingly named Python function; where the two source files
hold duplicated copies of a function that differ, the copies live in the
namespaces `App` (for `app.py`) and `DocumentProcessor`
(for `document_processor.py`).
-/

/-- A Python string: a sequence of code points. -/
abbrev PyStr := List Char

/-- ASCII whitespace, as recognised by Python `str.strip()` / `str.split()`
(restricted to the ASCII range: space, tab, newline, carriage return,
vertical tab, form feed). -/
def isPySpace (c : Char) : Bool :=
  c.toNat = 32 || c.toNat = 9 || c.toNat = 10 || c.toNat = 13 || c.toNat = 11 || c.toNat = 12

/-- Python `s.strip()`: remove leading and trailing whitespace. -/
def pyStrip (s : PyStr) : PyStr :=
  ((s.dropWhile isPySpace).reverse.dropWhile isPySpace).reverse

/-- Python `s.split()` with no arguments: the maximal whitespace-free runs of `s`. -/
def pySplit (s : PyStr) : List PyStr :=
  (List.splitOnP isPySpace s).filter (fun t => t ≠ [])

/-- A docx document, abstracted to the sequence of its paragraph texts in
document order (the `doc.paragraphs` the python-docx library exposes). -/
structure DocxFile where
  paragraphs : List PyStr

/-- A pdf document, abstracted to the outcome of the two external extraction
collaborators: `pages` holds the per-page result of `page.extract_text()`
(`none` when the text layer is absent), and `ocrPages` holds the per-page-image
OCR output `pytesseract.image_to_string(image)`. -/
structure PdfFile where
  pages : List (Option PyStr)
  ocrPages : List PyStr

/-- Loop body of `extract_text_from_pdf`: `if extracted_text: text += extracted_text + "\n"`.
A `none` result and an empty string are both falsy in Python, so both leave
the accumulator unchanged. -/
def pdfPageStep (text : PyStr) (p : Option PyStr) : PyStr :=
  match p with
  | some t => if t = [] then text else text ++ t ++ ['\n']
  | none => text

/-- Embedding of `extract_text_from_pdf` (`document_processor.py` lines 31-41,
duplicated at `app.py` lines 134-146 with an added progress bar): fold the
per-page extraction results, appending a newline after each truthy page text. -/
def extract_text_from_pdf (pages : List (Option PyStr)) : PyStr :=
  pages.foldl pdfPageStep []

/-- Loop body of `extract_text_with_ocr`: `full_text += pytesseract.image_to_string(image) + "\n"`. -/
def ocrPageStep (full_text t : PyStr) : PyStr :=
  full_text ++ t ++ ['\n']

/-- Embedding of `extract_text_with_ocr` (`document_processor.py` lines 19-28):
concatenate every per-page OCR output followed by a newline, in page order. -/
def extract_text_with_ocr (ocrPages : List PyStr) : PyStr :=
  ocrPages.foldl ocrPageStep []

namespace App

/-- Embedding of `extract_text_from_docx` (`app.py` lines 148-155):
`"\n".join([para.text for para in doc.paragraphs])`. -/
def extract_text_from_docx (d : DocxFile) : PyStr :=
  List.intercalate ['\n'] d.paragraphs

end App

namespace DocumentProcessor

/-- Loop body of the `document_processor.py` docx extractor: `text += para.text + "\n"`. -/
def docxParaStep (text p : PyStr) : PyStr :=
  text ++ p ++ ['\n']

/-- Embedding of `extract_text_from_docx` (`document_processor.py` lines 54-63):
accumulate each paragraph text followed by a newline. -/
def extract_text_from_docx (d : DocxFile) : PyStr :=
  d.paragraphs.foldl docxParaStep []

end DocumentProcessor

/-- Embedding of `get_pdf_text` (`document_processor.py` lines 44-51, duplicated
as the pdf branch of `get_document_text` in `app.py` lines 158-165).  The second
component instruments the branch taken: it is `true` exactly when the OCR
extractor was invoked. -/
def get_pdf_text (f : PdfFile) : PyStr × Bool :=
  let text := extract_text_from_pdf f.pages
  if (pyStrip text).length < 50 then (extract_text_with_ocr f.ocrPages, true)
  else (text, false)

/-- An uploaded document together with its declared format tag. -/
inductive UploadedFile where
  | pdf (f : PdfFile)
  | docx (d : DocxFile)

/-- Embedding of `get_document_text` (`app.py` lines 157-169): dispatch on the
file type; pdf goes through the structured-extraction-then-OCR policy, docx
always through structured docx extraction.  The second component records
whether OCR was invoked. -/
def get_document_text : UploadedFile → PyStr × Bool
  | .pdf f => get_pdf_text f
  | .docx d => (App.extract_text_from_docx d, false)

/-- Embedding of `validate_api_key` (`app.py` lines 201-209): rejects a missing
or empty key, a key shorter than 20 characters, and a key whose first
characters are neither `sk-` nor `org-`. -/
def validate_api_key (api_key : Option PyStr) : Bool :=
  match api_key with
  | none => false
  | some k =>
    if k = [] || k.length < 20 then false
    else if !(List.isPrefixOf ("sk-").data k || List.isPrefixOf ("org-").data k) then false
    else true

/-- Claim C7: `validate_api_key` rejects `None`, the empty string and every
string shorter than 20 characters, rejects every string carrying neither the
`sk-` nor the `org-` marker at its start, and accepts every string of length
at least 20 that carries one of the two markers; in particular it accepts a
well-formed 24-character `sk-` key. -/
theorem validate_api_key_spec :
    validate_api_key none = false ∧
    validate_api_key (some []) = false ∧
    (∀ k : PyStr, k.length < 20 → validate_api_key (some k) = false) ∧
    (∀ k : PyStr, List.isPrefixOf ("sk-").data k = false →
      List.isPrefixOf ("org-").data k = false → validate_api_key (some k) = false) ∧
    (∀ k : PyStr, 20 ≤ k.length →
      (List.isPrefixOf ("sk-").data k = true ∨ List.isPrefixOf ("org-").data k = true) →
      validate_api_key (some k) = true) ∧
    validate_api_key (some ("sk-abcdefghijklmnopqrstu").data) = true := by
  refine ⟨rfl, rfl, ?_, ?_, ?_, by decide⟩
  · intro k hk
    simp [validate_api_key]
    intro h
    omega
  · intro k h1 h2
    simp [validate_api_key, h1, h2]
  · intro k hlen hpre
    have hne : k ≠ [] := by
      intro h
      subst h
      simp at hlen
    simp [validate_api_key, hne]
    constructor
    · omega
    · rcases hpre with h | h
      · exact Or.inl (by simpa using h)
      · exact Or.inr (by simpa using h)

/-- Witness for claim C7 at concrete keys: a 5-character key is rejected,
a 30-character key without the markers is rejected, and a 20-character
`org-` key is accepted. -/
theorem validate_api_key_spec_witness :
    (("abcde").data.length < 20 ∧ validate_api_key (some ("abcde").data) = false) ∧
    validate_api_key (some ("abcdefghijklmnopqrstuvwxyz1234").data) = false ∧
    validate_api_key (some ("org-efghijklmnopqrst").data) = true :=
  ⟨⟨by decide, validate_api_key_spec.2.2.1 ("abcde").data (by decide)⟩,
    validate_api_key_spec.2.2.2.1 ("abcdefghijklmnopqrstuvwxyz1234").data
      (by decide) (by decide),
    validate_api_key_spec.2.2.2.2.1 ("org-efghijklmnopqrst").data
      (by decide) (Or.inr (by decide))⟩

/-- Folding the pdf page step from any accumulator prepends the accumulator. -/
theorem foldl_pdfPageStep_acc (pages : List (Option PyStr)) :
    ∀ acc : PyStr, pages.foldl pdfPageStep acc = acc ++ pages.foldl pdfPageStep [] := by
  induction pages with
  | nil => intro acc; simp
  | cons p ps ih =>
    intro acc
    simp only [List.foldl_cons]
    rw [ih (pdfPageStep acc p), ih (pdfPageStep [] p)]
    cases p with
    | none => simp [pdfPageStep]
    | some t =>
      by_cases ht : t = [] <;> simp [pdfPageStep, ht]

/-- Characterisation of the structured pdf extractor: it is the concatenation
of `t ++ "\n"` over the truthy page texts `t`, in page order. -/
theorem extract_text_from_pdf_eq_flatten (pages : List (Option PyStr)) :
    extract_text_from_pdf pages =
      (((pages.filterMap id).filter (fun t => t ≠ [])).map (fun t => t ++ ['\n'])).flatten := by
  induction pages with
  | nil => rfl
  | cons p ps ih =>
    show (p :: ps).foldl pdfPageStep [] = _
    rw [List.foldl_cons, foldl_pdfPageStep_acc ps (pdfPageStep [] p)]
    have ih2 : List.foldl pdfPageStep [] ps =
        (((ps.filterMap id).filter (fun t => t ≠ [])).map (fun t => t ++ ['\n'])).flatten := ih
    cases p with
    | none => simpa [pdfPageStep] using ih2
    | some t =>
      by_cases ht : t = []
      · simpa [pdfPageStep, ht] using ih2
      · simp [pdfPageStep, ht, ih2]

/-- Claim C5: structured pdf extraction concatenates the per-page texts with a
newline separator after each non-empty page, and an empty page (a page whose
extraction yields nothing, or yields the empty string) contributes nothing:
deleting it from the page list leaves the result unchanged. -/
theorem extract_text_from_pdf_spec (pages l1 l2 : List (Option PyStr)) :
    extract_text_from_pdf pages =
      (((pages.filterMap id).filter (fun t => t ≠ [])).map (fun t => t ++ ['\n'])).flatten ∧
    extract_text_from_pdf (l1 ++ none :: l2) = extract_text_from_pdf (l1 ++ l2) ∧
    extract_text_from_pdf (l1 ++ some [] :: l2) = extract_text_from_pdf (l1 ++ l2) := by
  refine ⟨extract_text_from_pdf_eq_flatten pages, ?_, ?_⟩
  · rw [extract_text_from_pdf_eq_flatten, extract_text_from_pdf_eq_flatten]
    simp [List.filterMap_append]
  · rw [extract_text_from_pdf_eq_flatten, extract_text_from_pdf_eq_flatten]
    simp [List.filterMap_append]

/-- Folding the docx paragraph step from any accumulator prepends the accumulator. -/
theorem foldl_docxParaStep_acc (paras : List PyStr) :
    ∀ acc : PyStr,
      paras.foldl DocumentProcessor.docxParaStep acc =
        acc ++ paras.foldl DocumentProcessor.docxParaStep [] := by
  induction paras with
  | nil => intro acc; simp
  | cons p ps ih =>
    intro acc
    simp only [List.foldl_cons]
    rw [ih (DocumentProcessor.docxParaStep acc p), ih (DocumentProcessor.docxParaStep [] p)]
    simp [DocumentProcessor.docxParaStep]

/-- Counterexample to claim C10: on a one-paragraph document the
`document_processor.py` extractor produces a trailing newline while the
`app.py` extractor does not, so the two docx extractors are not equivalent. -/
theorem docx_extractors_not_equal :
    DocumentProcessor.extract_text_from_docx ⟨[("a").data]⟩ = ("a\n").data ∧
    App.extract_text_from_docx ⟨[("a").data]⟩ = ("a").data ∧
    DocumentProcessor.extract_text_from_docx ⟨[("a").data]⟩ ≠
      App.extract_text_from_docx ⟨[("a").data]⟩ := by
  refine ⟨by decide, by decide, by decide⟩

/-- Claim C10 as amended: on a document with no paragraphs both docx extractors
return the empty string, and on any other document the `document_processor.py`
extractor returns exactly the `app.py` result followed by one extra newline. -/
theorem docx_extractors_agree_up_to_newline (d : DocxFile) :
    DocumentProcessor.extract_text_from_docx d =
      (if d.paragraphs = [] then [] else App.extract_text_from_docx d ++ ['\n']) := by
  obtain ⟨ps⟩ := d
  show ps.foldl DocumentProcessor.docxParaStep [] =
    (if ps = [] then [] else List.intercalate ['\n'] ps ++ ['\n'])
  induction ps with
  | nil => rfl
  | cons p t ih =>
    rw [List.foldl_cons, foldl_docxParaStep_acc t (DocumentProcessor.docxParaStep [] p)]
    cases t with
    | nil => simp [DocumentProcessor.docxParaStep, List.intercalate]
    | cons q qs =>
      rw [ih]
      simp [DocumentProcessor.docxParaStep, List.intercalate, List.intersperse_cons_cons]

/-- Claim C1: for a pdf upload the dispatcher runs structured extraction first
and invokes OCR exactly when the structured result, after stripping whitespace,
is shorter than 50 characters, returning the OCR text in that case and the
structured text otherwise; for a docx upload it always returns the structured
docx extraction and never invokes OCR. -/
theorem get_document_text_spec :
    (∀ f : PdfFile,
      ((get_document_text (.pdf f)).snd = true ↔
        (pyStrip (extract_text_from_pdf f.pages)).length < 50) ∧
      ((pyStrip (extract_text_from_pdf f.pages)).length < 50 →
        (get_document_text (.pdf f)).fst = extract_text_with_ocr f.ocrPages) ∧
      (50 ≤ (pyStrip (extract_text_from_pdf f.pages)).length →
        (get_document_text (.pdf f)).fst = extract_text_from_pdf f.pages)) ∧
    (∀ d : DocxFile,
      get_document_text (.docx d) = (App.extract_text_from_docx d, false)) := by
  refine ⟨?_, fun d => rfl⟩
  intro f
  refine ⟨?_, ?_, ?_⟩
  · by_cases h : (pyStrip (extract_text_from_pdf f.pages)).length < 50 <;>
      simp [get_document_text, get_pdf_text, h]
  · intro h
    simp [get_document_text, get_pdf_text, h]
  · intro h
    have h2 : ¬ (pyStrip (extract_text_from_pdf f.pages)).length < 50 := by omega
    simp [get_document_text, get_pdf_text, h2]

/-- Witness for claim C1: a pdf whose structured layer holds only `Hi?` (below
the threshold) is answered with the OCR text, while a pdf with a 60-character
structured page is answered with the structured text; a docx upload is answered
with the structured docx text and OCR is not invoked. -/
theorem get_document_text_spec_witness :
    ((pyStrip (extract_text_from_pdf [some ("Hi?").data])).length < 50 ∧
      (get_document_text
        (.pdf ⟨[some ("Hi?").data], [("OCR RESULT").data]⟩)).fst =
          extract_text_with_ocr [("OCR RESULT").data]) ∧
    (50 ≤ (pyStrip (extract_text_from_pdf
        [some ("This page carries a structured text layer of sixty characters.").data])).length ∧
      (get_document_text
        (.pdf ⟨[some ("This page carries a structured text layer of sixty characters.").data],
          [("OCR RESULT").data]⟩)).fst =
        extract_text_from_pdf
          [some ("This page carries a structured text layer of sixty characters.").data]) ∧
    get_document_text (.docx ⟨[("Hello there").data]⟩) =
      (App.extract_text_from_docx ⟨[("Hello there").data]⟩, false) :=
  ⟨⟨by decide,
      (get_document_text_spec.1 ⟨[("Hi?").data], [("OCR RESULT").data]⟩).2.1 (by decide)⟩,
    ⟨by decide,
      (get_document_text_spec.1
        ⟨[some ("This page carries a structured text layer of sixty characters.").data],
          [("OCR RESULT").data]⟩).2.2 (by decide)⟩,
    get_document_text_spec.2 ⟨[("Hello there").data]⟩⟩

/-- The character class excluded inside the question pattern: `?`, `.`, `!`. -/
def isTermChar (c : Char) : Bool :=
  c == '?' || c == '.' || c == '!'

/-- The `[A-Z]` class of the question pattern: ASCII uppercase. -/
def isUpperAZ (c : Char) : Bool :=
  65 ≤ c.toNat && c.toNat ≤ 90

/-- Matching of the pattern tail after the uppercase start: the greedy run
of characters outside the terminator class, which must be closed by a literal
question mark.  Returns the run and the remainder after the closing mark.
Backtracking cannot rescue a failed attempt, because every character the run
gave back is itself outside the terminator class and hence never a question
mark; so this deterministic scan agrees with the regex engine. -/
def matchBody : PyStr → Option (PyStr × PyStr)
  | [] => none
  | c :: cs =>
    if c == '?' then some ([], cs)
    else if isTermChar c then none
    else
      match matchBody cs with
      | some (b, r) => some (c :: b, r)
      | none => none

/-- The left-to-right non-overlapping scan of `re.findall` for the pattern of
`extract_questions`: at an uppercase character attempt the tail; on success
emit the match and resume after its closing mark, otherwise resume at the next
character.  The fuel only bounds recursion; the top-level call passes the
input length, which the scan never exhausts since every step consumes at
least one character. -/
def findallQAux : Nat → PyStr → List PyStr
  | 0, _ => []
  | _ + 1, [] => []
  | fuel + 1, c :: cs =>
    if isUpperAZ c then
      match matchBody cs with
      | some (b, r) => (c :: (b ++ ['?'])) :: findallQAux fuel r
      | none => findallQAux fuel cs
    else findallQAux fuel cs

/-- The full match list of the question pattern over a text, in first-match
order, exactly as `re.findall` returns it. -/
def re_findall_questions (s : PyStr) : List PyStr :=
  findallQAux s.length s

/-- Embedding of `extract_questions` (`document_processor.py` lines 66-73,
duplicated at `app.py` lines 171-175): collect every match of the question
pattern, keep those with more than two whitespace-separated tokens, and strip
each kept match. -/
def extract_questions (text : PyStr) : List PyStr :=
  ((re_findall_questions text).filter (fun q => 2 < (pySplit q).length)).map pyStrip

/-- An ASCII uppercase character is not in the terminator class. -/
theorem isUpperAZ_not_term (c : Char) (h : isUpperAZ c = true) : isTermChar c = false := by
  simp only [isTermChar, Bool.or_eq_false_iff, beq_eq_false_iff_ne, ne_eq]
  refine ⟨⟨?_, ?_⟩, ?_⟩ <;> intro he <;> rw [he] at h <;> exact absurd h (by decide)

/-- An ASCII uppercase character is not whitespace. -/
theorem isUpperAZ_not_space (c : Char) (h : isUpperAZ c = true) : isPySpace c = false := by
  simp only [isUpperAZ, Bool.and_eq_true, decide_eq_true_eq] at h
  simp only [isPySpace, Bool.or_eq_false_iff, decide_eq_false_iff_not]
  omega

/-- A successful tail match splits the input at the first closing mark and its
run holds no terminator character. -/
theorem matchBody_shape :
    ∀ cs b r : PyStr, matchBody cs = some (b, r) →
      cs = b ++ '?' :: r ∧ ∀ x ∈ b, isTermChar x = false := by
  intro cs
  induction cs with
  | nil => intro b r h; cases h
  | cons c cs2 ih =>
    intro b r h
    simp only [matchBody] at h
    split at h
    · rename_i hq
      rw [Option.some.injEq, Prod.mk.injEq] at h
      obtain ⟨hb, hr⟩ := h
      subst hb
      subst hr
      have hc : c = '?' := by simpa using hq
      subst hc
      exact ⟨rfl, by intro x hx; cases hx⟩
    · rename_i hq
      split at h
      · cases h
      · rename_i ht
        have ht2 : isTermChar c = false := by
          simpa using ht
        split at h
        · rename_i b0 r0 hmb
          rw [Option.some.injEq, Prod.mk.injEq] at h
          obtain ⟨hb, hr⟩ := h
          subst hb
          subst hr
          obtain ⟨hsplit, hrun⟩ := ih b0 r0 hmb
          refine ⟨by rw [hsplit]; rfl, ?_⟩
          intro x hx
          rcases List.mem_cons.mp hx with hxc | hxb
          · subst hxc
            exact ht2
          · exact hrun x hxb
        · cases h

/-- Every match the scan emits starts with an uppercase character, ends with a
question mark, and holds no terminator character in between. -/
theorem findallQAux_mem_shape :
    ∀ (fuel : Nat) (cs m : PyStr), m ∈ findallQAux fuel cs →
      ∃ c b, m = c :: (b ++ ['?']) ∧ isUpperAZ c = true ∧
        ∀ x ∈ b, isTermChar x = false := by
  intro fuel
  induction fuel with
  | zero => intro cs m h; cases h
  | succ fuel ih =>
    intro cs m h
    cases cs with
    | nil => cases h
    | cons c cs2 =>
      simp only [findallQAux] at h
      split at h
      · rename_i hc
        split at h
        · rename_i b0 r0 hmb
          rcases List.mem_cons.mp h with hm | hm
          · refine ⟨c, b0, hm, hc, ?_⟩
            exact (matchBody_shape cs2 b0 r0 hmb).2
          · exact ih r0 m hm
        · exact ih cs2 m h
      · exact ih cs2 m h

/-- Stripping is the identity on a string that starts with a non-whitespace
character and ends with a question mark. -/
theorem pyStrip_question_id (c : Char) (b : PyStr) (hc : isPySpace c = false) :
    pyStrip (c :: (b ++ ['?'])) = c :: (b ++ ['?']) := by
  have hq : isPySpace '?' = false := by decide
  have h1 : List.dropWhile isPySpace (c :: (b ++ ['?'])) = c :: (b ++ ['?']) := by
    simp [List.dropWhile_cons, hc]
  have h2 : (c :: (b ++ ['?'])).reverse = '?' :: (b.reverse ++ [c]) := by
    simp
  rw [pyStrip, h1, h2]
  have h3 : List.dropWhile isPySpace ('?' :: (b.reverse ++ [c])) =
      '?' :: (b.reverse ++ [c]) := by
    simp [List.dropWhile_cons, hq]
  rw [h3]
  simp

/-- The filtered matches are untouched by the final strip, so the segmenter
output is exactly the token-filtered match list. -/
theorem extract_questions_eq_filter (text : PyStr) :
    extract_questions text =
      (re_findall_questions text).filter (fun q => 2 < (pySplit q).length) := by
  unfold extract_questions
  have h : ∀ q ∈ (re_findall_questions text).filter (fun q => 2 < (pySplit q).length),
      pyStrip q = id q := by
    intro q hq
    obtain ⟨c, b, rfl, hc, _⟩ :=
      findallQAux_mem_shape _ _ q (List.mem_of_mem_filter hq)
    exact pyStrip_question_id c b (isUpperAZ_not_space c hc)
  exact (List.map_congr_left h).trans (List.map_id _)

/-- Claim C2: every string the segmenter returns is non-empty, ends with a
question mark, starts with an ASCII uppercase character, holds no terminator
character before its final one, and has strictly more than two
whitespace-separated tokens; the empty input yields the empty list; the output
is an order-preserving sublist of the full first-match-order match list, and
every match with enough tokens is kept with its full multiplicity (no
deduplication). -/
theorem extract_questions_spec (text : PyStr) :
    (∀ q ∈ extract_questions text,
      q ≠ [] ∧
      q.getLast? = some '?' ∧
      (∃ c, q.head? = some c ∧ isUpperAZ c = true) ∧
      (∀ x ∈ q.dropLast, isTermChar x = false) ∧
      2 < (pySplit q).length) ∧
    extract_questions [] = [] ∧
    List.Sublist (extract_questions text) (re_findall_questions text) ∧
    (∀ q : PyStr, 2 < (pySplit q).length →
      List.count q (extract_questions text) =
        List.count q (re_findall_questions text)) := by
  refine ⟨?_, rfl, ?_, ?_⟩
  · intro q hq
    rw [extract_questions_eq_filter] at hq
    have htok : 2 < (pySplit q).length := by
      have := List.of_mem_filter hq
      simpa using this
    obtain ⟨c, b, rfl, hc, hb⟩ :=
      findallQAux_mem_shape _ _ q (List.mem_of_mem_filter hq)
    refine ⟨by simp, ?_, ⟨c, rfl, hc⟩, ?_, htok⟩
    · show (c :: (b ++ ['?'])).getLast? = some '?'
      rw [show c :: (b ++ ['?']) = (c :: b) ++ ['?'] by rfl]
      exact List.getLast?_concat _
    · rw [show c :: (b ++ ['?']) = (c :: b) ++ ['?'] by rfl, List.dropLast_concat]
      intro x hx
      rcases List.mem_cons.mp hx with hxc | hxb
      · subst hxc; exact isUpperAZ_not_term x hc
      · exact hb x hxb
  · rw [extract_questions_eq_filter]
    exact List.filter_sublist _
  · intro q hq
    rw [extract_questions_eq_filter]
    exact List.count_filter (by simpa using hq)

/-- Witness for claim C2 at a concrete input: the segmenter keeps the
four-token question and drops the one-token question, and the kept question
satisfies every stated property. -/
theorem extract_questions_spec_witness :
    ("What is this system?").data ∈ extract_questions ("What is this system? Hi?").data ∧
    (("What is this system?").data ≠ [] ∧
      (("What is this system?").data).getLast? = some '?' ∧
      (∃ c, (("What is this system?").data).head? = some c ∧ isUpperAZ c = true) ∧
      (∀ x ∈ (("What is this system?").data).dropLast, isTermChar x = false) ∧
      2 < (pySplit ("What is this system?").data).length) ∧
    List.count (("What is this system?").data)
        (extract_questions ("What is this system? Hi?").data) =
      List.count (("What is this system?").data)
        (re_findall_questions ("What is this system? Hi?").data) :=
  ⟨by decide,
    (extract_questions_spec ("What is this system? Hi?").data).1
      (("What is this system?").data) (by decide),
    (extract_questions_spec ("What is this system? Hi?").data).2.2.2
      (("What is this system?").data) (by decide)⟩

/-- Claim C8: the question pattern does not exclude newlines, so a match may
span a line break: on an input holding a newline between the uppercase start
and the closing mark, the segmenter returns that multi-line match. -/
theorem extract_questions_multiline :
    extract_questions ("What is\nthis thing?").data = [("What is\nthis thing?").data] ∧
    '\n' ∈ ("What is\nthis thing?").data := by
  exact ⟨by decide, by decide⟩

/-- Embedding of `generate_answers` (`document_processor.py` lines 86-116).
The remote answer service is abstracted as an oracle `acquire` returning
`none` when the call raises (network error, malformed response, bad
credential); the loop then appends the fixed fallback pair and continues with
the next question, otherwise it appends the stripped response content. -/
def generate_answers (acquire : PyStr → Option PyStr) (questions : List PyStr) :
    List (PyStr × PyStr) :=
  questions.map (fun question =>
    match acquire question with
    | some content => (question, pyStrip content)
    | none => (question, ("Unable to generate an answer at this time.").data))

/-- Claim C4: the answer batch over N questions yields exactly N pairs whose
first components are the questions in input order; a failing question is still
paired, with the fixed fallback string, and every other question is processed
normally, so one failure never aborts or shrinks the batch. -/
theorem generate_answers_spec (acquire : PyStr → Option PyStr) (qs : List PyStr) :
    (generate_answers acquire qs).length = qs.length ∧
    (generate_answers acquire qs).map Prod.fst = qs ∧
    (∀ p ∈ generate_answers acquire qs,
      (acquire p.fst = none →
        p.snd = ("Unable to generate an answer at this time.").data) ∧
      (∀ a, acquire p.fst = some a → p.snd = pyStrip a)) := by
  refine ⟨by simp [generate_answers], ?_, ?_⟩
  · induction qs with
    | nil => rfl
    | cons q rest ih =>
      have hstep : generate_answers acquire (q :: rest) =
          (match acquire q with
            | some content => (q, pyStrip content)
            | none => (q, ("Unable to generate an answer at this time.").data)) ::
            generate_answers acquire rest := rfl
      rw [hstep, List.map_cons, ih]
      cases acquire q <;> rfl
  · intro p hp
    obtain ⟨q, _, rfl⟩ := List.mem_map.mp hp
    cases hacq : acquire q with
    | none => exact ⟨fun _ => by simp [hacq], fun a ha => by simp [hacq] at ha ⊢⟩
    | some content =>
      refine ⟨fun hcontra => ?_, fun a ha => ?_⟩
      · rw [hacq] at hcontra
        simp [hacq] at hcontra
      · rw [hacq] at ha
        rw [Option.some.injEq] at ha
        subst ha
        simp [hacq]

/-- Witness for claim C4: with two questions of which the first fails, the
batch still has two pairs, and the failing pair carries the fallback string. -/
theorem generate_answers_spec_witness :
    (generate_answers
        (fun q => if q = ("Q one?").data then none else some ((" A2 ").data))
        [("Q one?").data, ("Q two?").data]).length =
      ([("Q one?").data, ("Q two?").data] : List PyStr).length ∧
    ((("Q one?").data, ("Unable to generate an answer at this time.").data) ∈
      generate_answers
        (fun q => if q = ("Q one?").data then none else some ((" A2 ").data))
        [("Q one?").data, ("Q two?").data]) ∧
    ((("Q one?").data, ("Unable to generate an answer at this time.").data) :
        PyStr × PyStr).snd = ("Unable to generate an answer at this time.").data :=
  ⟨(generate_answers_spec
      (fun q => if q = ("Q one?").data then none else some ((" A2 ").data))
      [("Q one?").data, ("Q two?").data]).1,
    by decide,
    ((generate_answers_spec
        (fun q => if q = ("Q one?").data then none else some ((" A2 ").data))
        [("Q one?").data, ("Q two?").data]).2.2
      (("Q one?").data, ("Unable to generate an answer at this time.").data)
      (by decide)).1 (by decide)⟩

/-- A block of the assembled output document: a heading with a level, or a
body paragraph with an optional named style. -/
inductive DocxBlock where
  | heading (text : PyStr) (level : Nat)
  | para (text : PyStr) (style : Option PyStr)
deriving DecidableEq

/-- Loop of `save_qa_to_docx`: for the pair carrying 1-based label `i`, add
the labelled sub-heading paragraph and then the answer paragraph. -/
def qaBlocks : Nat → List (PyStr × PyStr) → List DocxBlock
  | _, [] => []
  | i, (question, answer) :: rest =>
    DocxBlock.para (("Question ").data ++ (toString i).data ++ (": ").data ++ question)
        (some ("Heading 2").data) ::
      DocxBlock.para (answer ++ ['\n']) none ::
        qaBlocks (i + 1) rest

/-- Embedding of `save_qa_to_docx` (`document_processor.py` lines 119-128,
duplicated as `save_to_docx` in `app.py` lines 192-199): a level-1 title
heading followed by, per pair in input order, a labelled sub-heading and the
answer paragraph, the labels counting from 1 as in `enumerate(..., start=1)`. -/
def save_to_docx (questions_answers : List (PyStr × PyStr)) : List DocxBlock :=
  DocxBlock.heading ("Questions & Answers from Document").data 1 ::
    qaBlocks 1 questions_answers

/-- Indexing into the question-and-answer block run: the pair at position `i`
produces the two blocks at positions `2i` and `2i + 1`, labelled `start + i`. -/
theorem qaBlocks_getElem (qas : List (PyStr × PyStr)) :
    ∀ (start i : Nat), ∀ h : i < qas.length,
      (qaBlocks start qas)[2 * i]? =
        some (DocxBlock.para
          (("Question ").data ++ (toString (start + i)).data ++ (": ").data ++ (qas[i]).fst)
          (some ("Heading 2").data)) ∧
      (qaBlocks start qas)[2 * i + 1]? =
        some (DocxBlock.para ((qas[i]).snd ++ ['\n']) none) := by
  induction qas with
  | nil =>
    intro start i h
    cases h
  | cons qa rest ih =>
    intro start i h
    obtain ⟨question, answer⟩ := qa
    cases i with
    | zero => simp [qaBlocks]
    | succ j =>
      have hj : j < rest.length := by
        simpa using Nat.lt_of_succ_lt_succ h
      have harith : 2 * (j + 1) = 2 * j + 1 + 1 := by omega
      have hlabel : start + 1 + j = start + (j + 1) := by omega
      obtain ⟨ih1, ih2⟩ := ih (start + 1) j hj
      rw [hlabel] at ih1
      constructor
      · rw [harith]
        simpa [qaBlocks] using ih1
      · rw [harith]
        simpa [qaBlocks] using ih2

/-- Claim C6: the assembled document has exactly `1 + 2N` blocks for `N`
pairs, begins with the fixed top-level heading, and for every pair index `i`
(0-based) carries at positions `2i + 1` and `2i + 2` the sub-heading labelled
`Question i+1: <question>` and then the answer paragraph, in input order; no
pair is skipped, whatever its answer text is. -/
theorem save_to_docx_spec (qas : List (PyStr × PyStr)) :
    (save_to_docx qas).length = 1 + 2 * qas.length ∧
    (save_to_docx qas).head? =
      some (DocxBlock.heading ("Questions & Answers from Document").data 1) ∧
    (∀ (i : Nat), ∀ h : i < qas.length,
      (save_to_docx qas)[2 * i + 1]? =
        some (DocxBlock.para
          (("Question ").data ++ (toString (i + 1)).data ++ (": ").data ++ (qas[i]).fst)
          (some ("Heading 2").data)) ∧
      (save_to_docx qas)[2 * i + 2]? =
        some (DocxBlock.para ((qas[i]).snd ++ ['\n']) none)) := by
  refine ⟨?_, rfl, ?_⟩
  · have hlen : ∀ (start : Nat) (l : List (PyStr × PyStr)),
        (qaBlocks start l).length = 2 * l.length := by
      intro start l
      induction l generalizing start with
      | nil => rfl
      | cons qa rest ih =>
        obtain ⟨question, answer⟩ := qa
        simp [qaBlocks, ih]
        omega
    simp [save_to_docx, hlen]
    omega
  · intro i h
    obtain ⟨h1, h2⟩ := qaBlocks_getElem qas 1 i h
    have hl1 : 1 + i = i + 1 := by omega
    rw [hl1] at h1
    constructor
    · show (DocxBlock.heading ("Questions & Answers from Document").data 1 ::
        qaBlocks 1 qas)[2 * i + 1]? = _
      simpa using h1
    · show (DocxBlock.heading ("Questions & Answers from Document").data 1 ::
        qaBlocks 1 qas)[2 * i + 2]? = _
      have harith : 2 * i + 2 = (2 * i + 1) + 1 := by omega
      rw [harith]
      simpa using h2

/-- Witness for claim C6: on a concrete two-pair input, the block at position
3 is the sub-heading labelled `Question 2` and the block at position 4 is the
second answer paragraph. -/
theorem save_to_docx_spec_witness :
    (save_to_docx [(("Q one?").data, ("A1").data), (("Q two?").data, ("A2").data)]).length =
      1 + 2 * ([(("Q one?").data, ("A1").data), (("Q two?").data, ("A2").data)] :
        List (PyStr × PyStr)).length ∧
    (save_to_docx [(("Q one?").data, ("A1").data), (("Q two?").data, ("A2").data)])[3]? =
      some (DocxBlock.para
        (("Question ").data ++ (toString 2).data ++ (": ").data ++ ("Q two?").data)
        (some ("Heading 2").data)) ∧
    (save_to_docx [(("Q one?").data, ("A1").data), (("Q two?").data, ("A2").data)])[4]? =
      some (DocxBlock.para (("A2").data ++ ['\n']) none) :=
  ⟨(save_to_docx_spec [(("Q one?").data, ("A1").data), (("Q two?").data, ("A2").data)]).1,
    ((save_to_docx_spec [(("Q one?").data, ("A1").data), (("Q two?").data, ("A2").data)]).2.2
      1 (by decide)).1,
    ((save_to_docx_spec [(("Q one?").data, ("A1").data), (("Q two?").data, ("A2").data)]).2.2
      1 (by decide)).2⟩

namespace App

/-- Embedding of `get_gpt_answer` (`app.py` lines 177-190): the stripped
response content on success, or the fixed fallback string when the remote
call raises. -/
def get_gpt_answer (acquire : PyStr → Option PyStr) (question : PyStr) : PyStr :=
  match acquire question with
  | some content => pyStrip content
  | none =>
    ("Unable to generate an answer. Please check your API key and try again.").data

end App

/-- Which stages of one `main` document run executed, with the data produced.
`questions_answers` is empty unless answer acquisition ran. -/
structure MainOutcome where
  extractionRan : Bool
  segmentationRan : Bool
  acquisitionRan : Bool
  questions : List PyStr
  questions_answers : List (PyStr × PyStr)
deriving DecidableEq

/-- Embedding of the document-handling part of `main` (`app.py` lines
274-330): the whole processing body sits under the guard
`if uploaded_file and validate_api_key(current_api_key)`; inside it,
extraction and segmentation always run, and answer acquisition runs only when
questions were found and the user pressed the generate button. -/
def main_document_flow (uploaded : Option UploadedFile) (api_key : Option PyStr)
    (generateClicked : Bool) (acquire : PyStr → Option PyStr) : MainOutcome :=
  match uploaded with
  | some file =>
    if validate_api_key api_key then
      let full_text := (get_document_text file).fst
      let questions := extract_questions full_text
      if questions = [] then
        { extractionRan := true, segmentationRan := true, acquisitionRan := false,
          questions := questions, questions_answers := [] }
      else if generateClicked then
        { extractionRan := true, segmentationRan := true, acquisitionRan := true,
          questions := questions,
          questions_answers := questions.map (fun q => (q, App.get_gpt_answer acquire q)) }
      else
        { extractionRan := true, segmentationRan := true, acquisitionRan := false,
          questions := questions, questions_answers := [] }
    else
      { extractionRan := false, segmentationRan := false, acquisitionRan := false,
        questions := [], questions_answers := [] }
  | none =>
    { extractionRan := false, segmentationRan := false, acquisitionRan := false,
      questions := [], questions_answers := [] }

/-- Counterexample to claim C3: a docx document containing a four-token
question is uploaded while the configured credential fails validation; the
guard of `main` then skips the whole body, so text extraction and question
segmentation do NOT run, against the claim that they are performed
regardless of credential validity. -/
theorem main_blocks_extraction_on_bad_key :
    validate_api_key none = false ∧
    (main_document_flow (some (.docx ⟨[("What is this system?").data]⟩)) none false
      (fun _ => none)).extractionRan = false ∧
    (main_document_flow (some (.docx ⟨[("What is this system?").data]⟩)) none false
      (fun _ => none)).segmentationRan = false ∧
    extract_questions
        (get_document_text (.docx ⟨[("What is this system?").data]⟩)).fst ≠ [] := by
  exact ⟨rfl, by decide, by decide, by decide⟩

/-- Claim C3 as amended: an invalid credential blocks the entire per-document
pipeline, not just answer acquisition: whatever is uploaded, neither text
extraction nor question segmentation nor answer acquisition is performed. -/
theorem main_invalid_key_blocks_everything (uploaded : Option UploadedFile)
    (api_key : Option PyStr) (generateClicked : Bool)
    (acquire : PyStr → Option PyStr) (h : validate_api_key api_key = false) :
    (main_document_flow uploaded api_key generateClicked acquire).extractionRan = false ∧
    (main_document_flow uploaded api_key generateClicked acquire).segmentationRan = false ∧
    (main_document_flow uploaded api_key generateClicked acquire).acquisitionRan = false := by
  cases uploaded with
  | none => exact ⟨rfl, rfl, rfl⟩
  | some file => simp [main_document_flow, h]

/-- Witness for the amended claim C3 at a concrete upload and a concrete
too-short credential. -/
theorem main_invalid_key_blocks_everything_witness :
    validate_api_key (some ("sk-short").data) = false ∧
    (main_document_flow (some (.docx ⟨[("What is this system?").data]⟩))
      (some ("sk-short").data) true (fun _ => none)).extractionRan = false ∧
    (main_document_flow (some (.docx ⟨[("What is this system?").data]⟩))
      (some ("sk-short").data) true (fun _ => none)).segmentationRan = false ∧
    (main_document_flow (some (.docx ⟨[("What is this system?").data]⟩))
      (some ("sk-short").data) true (fun _ => none)).acquisitionRan = false :=
  ⟨by decide,
    (main_invalid_key_blocks_everything (some (.docx ⟨[("What is this system?").data]⟩))
      (some ("sk-short").data) true (fun _ => none) (by decide)).1,
    (main_invalid_key_blocks_everything (some (.docx ⟨[("What is this system?").data]⟩))
      (some ("sk-short").data) true (fun _ => none) (by decide)).2.1,
    (main_invalid_key_blocks_everything (some (.docx ⟨[("What is this system?").data]⟩))
      (some ("sk-short").data) true (fun _ => none) (by decide)).2.2⟩

/-- Model of `os.unlink` on the uploaded-file temp artifact: after it runs the
artifact no longer exists, whatever its prior state. -/
def os_unlink (_tempExists : Bool) : Bool :=
  false

/-- Embedding of the temp-file lifecycle of `main` (`app.py` lines 283-337):
the uploaded bytes are written to a temp file (the artifact exists), the
processing body runs inside `try`, and the `finally` block unlinks the temp
file whether the body returned normally or raised; a raising body is modelled
by the `Except.error` case.  The second component is whether the artifact
still exists after the run. -/
def run_with_temp_cleanup (body : Bool → Except PyStr MainOutcome) :
    Except PyStr MainOutcome × Bool :=
  let tempExists := true
  match body tempExists with
  | Except.ok res => (Except.ok res, os_unlink tempExists)
  | Except.error e => (Except.error e, os_unlink tempExists)

/-- Claim C9: on every exit path of the guarded processing run - normal
return or an exception raised anywhere in extraction, segmentation or
acquisition - the uploaded-file temp artifact is deleted: after the run it no
longer exists, and the body outcome (including a raised error) is passed
through unchanged. -/
theorem run_with_temp_cleanup_spec (body : Bool → Except PyStr MainOutcome) :
    (run_with_temp_cleanup body).snd = false ∧
    (run_with_temp_cleanup body).fst = body true := by
  cases hb : body true with
  | ok res => simp [run_with_temp_cleanup, os_unlink, hb]
  | error e => simp [run_with_temp_cleanup, os_unlink, hb]
